import Mathlib

/-!
Verification of the OmniSciDB perfect-hash join-table component
(`QueryEngine/JoinHashTable/HashJoin.h` and
`QueryEngine/JoinHashTable/JoinHashTable.h`) against its specification.

The headers under `src/` declare the facade (`HashJoin`), the perfect-hash
implementation (`JoinHashTable`), the error classes and the build-cache key.
Function bodies that live only in the corresponding `.cpp` translation units
(the builder, the layout selector, the probe code generator and the cache
lookup) are modelled from the specification; every such definition carries a
doc comment starting with `Modelled from the spec:`.
-/

namespace OmniSciJoin

/-- The hash-table layout enumeration (`HashType`): `OneToOne`, `OneToMany`,
`ManyToMany`, with underlying integer values 0, 1, 2 in declaration order. -/
inductive HashType where
  | OneToOne
  | OneToMany
  | ManyToMany
  deriving DecidableEq, Repr

/-- `static_cast<int>(ht)`: the underlying integer of a `HashType` value. -/
def HashType.toInt : HashType → Nat
  | .OneToOne => 0
  | .OneToMany => 1
  | .ManyToMany => 2

/-- The fixed 3-element array `HashTypeStrings` inside
`HashJoin::getHashTypeString`. -/
def HashTypeStrings : List String :=
  ["OneToOne", "OneToMany", "ManyToMany"]

/-- `HashJoin::getHashTypeString(ht)`: indexes `HashTypeStrings` with the
enum's integer value.  The raw C++ array access has no bounds check; the
embedding returns `none` exactly when the access would be out of bounds. -/
def getHashTypeString (ht : HashType) : Option String :=
  HashTypeStrings.get? ht.toInt

/-- `HashJoin::layoutRequiresAdditionalBuffers(layout)`:
`layout == HashType::ManyToMany || layout == HashType::OneToMany`. -/
def layoutRequiresAdditionalBuffers (layout : HashType) : Bool :=
  layout == HashType.ManyToMany || layout == HashType.OneToMany

/-- Modelled from the spec: the facade's offset-region byte offset
(`offsetBufferOff`, body not under `src/`) — valid only for layouts with
additional buffers; the offset array is the first region. -/
def offsetBufferOff (layout : HashType) (component_size : Nat) :
    Option Nat :=
  if layoutRequiresAdditionalBuffers layout then some 0 else none

/-- Modelled from the spec: the facade's count-region byte offset
(`countBufferOff`, body not under `src/`) — valid only for layouts with
additional buffers; the count array follows the offset array. -/
def countBufferOff (layout : HashType) (component_size : Nat) :
    Option Nat :=
  if layoutRequiresAdditionalBuffers layout then some component_size
  else none

/-- Modelled from the spec: the facade's payload-region byte offset
(`payloadBufferOff`, body not under `src/`) — valid only for layouts with
additional buffers; the payload follows the offset and count arrays. -/
def payloadBufferOff (layout : HashType) (component_size : Nat) :
    Option Nat :=
  if layoutRequiresAdditionalBuffers layout then some (2 * component_size)
  else none

/-- C7: `layoutRequiresAdditionalBuffers` returns `true` exactly when the
layout is `OneToMany` or `ManyToMany` and `false` for `OneToOne`, and the
offset/count/payload region byte offsets are valid (defined) exactly for
the layouts with additional buffers. -/
theorem layoutRequiresAdditionalBuffers_iff :
    (∀ layout : HashType,
      layoutRequiresAdditionalBuffers layout = true ↔
        (layout = HashType.OneToMany ∨ layout = HashType.ManyToMany)) ∧
    layoutRequiresAdditionalBuffers HashType.OneToOne = false ∧
    ∀ (layout : HashType) (component_size : Nat),
      ((offsetBufferOff layout component_size).isSome =
          layoutRequiresAdditionalBuffers layout ∧
       (countBufferOff layout component_size).isSome =
          layoutRequiresAdditionalBuffers layout ∧
       (payloadBufferOff layout component_size).isSome =
          layoutRequiresAdditionalBuffers layout) := by
  refine ⟨?_, rfl, ?_⟩
  · intro layout
    cases layout <;> simp [layoutRequiresAdditionalBuffers]
  · intro layout component_size
    cases layout <;>
      simp [offsetBufferOff, countBufferOff, payloadBufferOff,
        layoutRequiresAdditionalBuffers]

/-- C8: for each of the three `HashType` enumerators the indexed access into
the 3-element `HashTypeStrings` array is in bounds and yields the matching
name string; every enumerator's integer value is strictly below the array
length. -/
theorem getHashTypeString_spec :
    getHashTypeString HashType.OneToOne = some "OneToOne" ∧
    getHashTypeString HashType.OneToMany = some "OneToMany" ∧
    getHashTypeString HashType.ManyToMany = some "ManyToMany" ∧
    ∀ ht : HashType, ht.toInt < HashTypeStrings.length := by
  refine ⟨rfl, rfl, rfl, ?_⟩
  intro ht
  cases ht <;> simp [HashType.toInt, HashTypeStrings]

/-- The expression-range tag (`ExpressionRangeType`): the `JoinHashTable`
constructor requires an `Integer` range. -/
inductive ExpressionRangeType where
  | Invalid
  | Integer
  | Float
  | Double
  deriving DecidableEq, Repr

/-- The key column's value-range estimate (`ExpressionRange`), restricted to
the fields the join-table code reads: the range type tag, the integer
minimum and maximum, and whether the column contains nulls. -/
structure ExpressionRange where
  type : ExpressionRangeType
  int_min : Int
  int_max : Int
  has_nulls : Bool
  deriving DecidableEq, Repr

/-- The observable state of a `JoinHashTable` object: the facade's
per-device table vector `hash_tables_for_device_` (a `none` entry models a
null `shared_ptr`), together with the fields `hash_type_`,
`hash_entry_count_`, `col_range_` and `device_count_` of
`JoinHashTable`.  `α` stands for the pointed-to `PerfectHashTable`. -/
structure JoinHashTableState (α : Type) where
  hash_type : HashType
  hash_entry_count : Nat
  col_range : ExpressionRange
  device_count : Int
  hash_tables_for_device : List (Option α)
  deriving DecidableEq, Repr

/-- The private `JoinHashTable` constructor: initializes `hash_type_` to the
preferred layout, `hash_entry_count_` to 0, checks
`CHECK(col_range.getType() == ExpressionRangeType::Integer)` and
`CHECK_GT(device_count_, 0)` (a failed `CHECK` aborts, modelled as `none`),
then does `hash_tables_for_device_.resize(device_count_)`, leaving every
per-device slot a null pointer. -/
def JoinHashTable.construct (α : Type) (col_range : ExpressionRange)
    (preferred_hash_type : HashType) (device_count : Int) :
    Option (JoinHashTableState α) :=
  if col_range.type = ExpressionRangeType.Integer ∧ 0 < device_count then
    some { hash_type := preferred_hash_type,
           hash_entry_count := 0,
           col_range := col_range,
           device_count := device_count,
           hash_tables_for_device := List.replicate device_count.toNat none }
  else
    none

/-- `HashJoin::getHashTableForDevice(device_id)`:
`CHECK_LT(device_id, hash_tables_for_device_.size())` then returns
`hash_tables_for_device_[device_id].get()`.  The failed-`CHECK` abort is
modelled as the outer `none`; an in-bounds access yields the slot's
(possibly null) pointer. -/
def getHashTableForDevice {α : Type} (st : JoinHashTableState α)
    (device_id : Nat) : Option (Option α) :=
  if device_id < st.hash_tables_for_device.length then
    st.hash_tables_for_device.get? device_id
  else
    none

/-- `HashJoin::getDeviceCount()` as overridden by `JoinHashTable`: returns
the `device_count_` field. -/
def getDeviceCount {α : Type} (st : JoinHashTableState α) : Int :=
  st.device_count

/-- `HashJoin::freeHashBufferMemory()`: swaps `hash_tables_for_device_` with
a freshly default-constructed vector of the same size, so every per-device
entry becomes a null pointer while the number of slots is preserved. -/
def freeHashBufferMemory {α : Type} (st : JoinHashTableState α) :
    JoinHashTableState α :=
  { st with hash_tables_for_device :=
      List.replicate st.hash_tables_for_device.length none }

/-- C9: `freeHashBufferMemory` empties every per-device hash-table entry,
keeps the number of per-device slots, leaves `getDeviceCount` unchanged and
preserves exactly which `device_id` values `getHashTableForDevice` accepts
(the in-bounds index range). -/
theorem freeHashBufferMemory_frame :
    ∀ (α : Type) (st : JoinHashTableState α),
      (freeHashBufferMemory st).hash_tables_for_device.length =
          st.hash_tables_for_device.length ∧
      ((freeHashBufferMemory st).hash_tables_for_device.all
          fun t => t.isNone) = true ∧
      getDeviceCount (freeHashBufferMemory st) = getDeviceCount st ∧
      ∀ device_id : Nat,
        (getHashTableForDevice (freeHashBufferMemory st) device_id).isSome =
          (getHashTableForDevice st device_id).isSome := by
  intro α st
  refine ⟨by simp [freeHashBufferMemory], ?_, rfl, ?_⟩
  · simp [freeHashBufferMemory, List.all_eq_true]
  · intro device_id
    simp only [getHashTableForDevice, freeHashBufferMemory,
      List.length_replicate]
    by_cases h : device_id < st.hash_tables_for_device.length
    · simp only [h, if_true]
      rw [List.get?_eq_get (by simpa using h), List.get?_eq_get h]
      rfl
    · simp [h]

/-- C10: a successful `JoinHashTable` construction implies the column range
is `Integer`-typed and the device count strictly positive, and the resulting
state holds exactly `device_count` per-device slots; `getHashTableForDevice`
succeeds precisely on indices strictly below that slot count. -/
theorem JoinHashTable.construct_spec (α : Type) (col_range : ExpressionRange)
    (preferred_hash_type : HashType) (device_count : Int)
    (st : JoinHashTableState α)
    (h : JoinHashTable.construct α col_range preferred_hash_type
        device_count = some st) :
    col_range.type = ExpressionRangeType.Integer ∧
    0 < device_count ∧
    st.device_count = device_count ∧
    st.hash_tables_for_device.length = device_count.toNat ∧
    ∀ device_id : Nat,
      ((getHashTableForDevice st device_id).isSome = true ↔
        device_id < device_count.toNat) := by
  unfold JoinHashTable.construct at h
  split at h
  case isTrue hc =>
    cases h
    refine ⟨hc.1, hc.2, rfl, by simp, ?_⟩
    intro device_id
    simp only [getHashTableForDevice, List.length_replicate]
    by_cases hlt : device_id < device_count.toNat
    · simp only [hlt, if_true, iff_true]
      rw [List.get?_eq_get (by simpa using hlt)]
      rfl
    · simp [hlt]
  case isFalse => cases h

/-- A concrete `Integer`-typed column range used by the witnesses below. -/
def exampleColRange : ExpressionRange :=
  { type := ExpressionRangeType.Integer, int_min := 0, int_max := 10,
    has_nulls := false }

/-- The state the `JoinHashTable` constructor produces from
`exampleColRange` with two devices. -/
def exampleState : JoinHashTableState Nat :=
  { hash_type := HashType.OneToOne, hash_entry_count := 0,
    col_range := exampleColRange, device_count := 2,
    hash_tables_for_device := [none, none] }

/-- C10 witness: constructing with an `Integer`-typed range and two devices
succeeds; the conclusions hold at that concrete instance. -/
theorem JoinHashTable.construct_spec_witness :
    exampleColRange.type = ExpressionRangeType.Integer ∧
    (0 : Int) < 2 ∧
    exampleState.device_count = 2 ∧
    exampleState.hash_tables_for_device.length = (2 : Int).toNat ∧
    ∀ device_id : Nat,
      ((getHashTableForDevice exampleState device_id).isSome = true ↔
        device_id < (2 : Int).toNat) :=
  JoinHashTable.construct_spec Nat exampleColRange HashType.OneToOne 2
    exampleState (by decide)

/-- The inner/outer column descriptor (`Analyzer::ColumnVar`), restricted to
the identifying fields its equality compares: table id, column id, range
table entry index and type. -/
structure ColumnVar where
  table_id : Int
  column_id : Int
  rte_idx : Int
  type_info : Int
  deriving DecidableEq, Repr

/-- The SQL comparison-operator tag (`SQLOps`), restricted to the operators
a join qualifier can carry: `kEQ` (plain equality) and `kBW_EQ` (bitwise
equality, the `IS NOT DISTINCT FROM` form). -/
inductive SQLOps where
  | kEQ
  | kBW_EQ
  | kNE
  | kLT
  | kGT
  deriving DecidableEq, Repr

/-- The source-data identity key (`ChunkKey`), a vector of integers. -/
abbrev ChunkKey : Type := List Int

/-- `JoinHashTable::JoinHashTableCacheKey`: the six structural components of
a build-cache key. -/
structure JoinHashTableCacheKey where
  col_range : ExpressionRange
  inner_col : ColumnVar
  outer_col : ColumnVar
  num_elements : Nat
  chunk_key : ChunkKey
  optype : SQLOps
  deriving DecidableEq, Repr

/-- `JoinHashTableCacheKey::operator==`: the conjunction of the six
component equalities, in the source's order. -/
def JoinHashTableCacheKey.keyEq (a b : JoinHashTableCacheKey) : Bool :=
  decide (a.col_range = b.col_range) && decide (a.inner_col = b.inner_col) &&
  decide (a.outer_col = b.outer_col) &&
  decide (a.num_elements = b.num_elements) &&
  decide (a.chunk_key = b.chunk_key) && decide (a.optype = b.optype)

/-- Modelled from the spec: the Build Cache lookup used by
`JoinHashTable::initHashTableOnCpuFromCache` (its body is not under `src/`)
— the cache is a mapping from structural keys to previously built tables,
and a lookup scans for an entry whose key compares equal
(`JoinHashTableCacheKey::operator==`) to the query key, returning the
cached table on a hit so the build is skipped. -/
def initHashTableOnCpuFromCache {τ : Type}
    (cache : List (JoinHashTableCacheKey × τ))
    (key : JoinHashTableCacheKey) : Option τ :=
  (cache.find? fun entry => entry.1.keyEq key).map Prod.snd

/-- C5: two build-cache keys compare equal exactly when all six structural
components agree, and equality of the composite key is sufficient for the
cache lookup to return the previously built table (skipping the rebuild). -/
theorem cacheKey_eq_iff_components (a b : JoinHashTableCacheKey) :
    (JoinHashTableCacheKey.keyEq a b = true ↔
      (a.col_range = b.col_range ∧ a.inner_col = b.inner_col ∧
       a.outer_col = b.outer_col ∧ a.num_elements = b.num_elements ∧
       a.chunk_key = b.chunk_key ∧ a.optype = b.optype)) ∧
    ∀ (τ : Type) (t : τ) (rest : List (JoinHashTableCacheKey × τ)),
      JoinHashTableCacheKey.keyEq a b = true →
      initHashTableOnCpuFromCache ((a, t) :: rest) b = some t := by
  constructor
  · simp [JoinHashTableCacheKey.keyEq, and_assoc]
  · intro τ t rest h
    simp [initHashTableOnCpuFromCache, List.find?, h]

/-- C5 witness: a concrete pair of component-wise equal keys compares equal
and hits the cache. -/
theorem cacheKey_eq_iff_components_witness :
    (JoinHashTableCacheKey.keyEq
        { col_range := exampleColRange,
          inner_col := { table_id := 1, column_id := 2, rte_idx := 0,
                         type_info := 6 },
          outer_col := { table_id := 3, column_id := 4, rte_idx := 1,
                         type_info := 6 },
          num_elements := 11, chunk_key := ([1, 2] : List Int),
          optype := SQLOps.kEQ }
        { col_range := exampleColRange,
          inner_col := { table_id := 1, column_id := 2, rte_idx := 0,
                         type_info := 6 },
          outer_col := { table_id := 3, column_id := 4, rte_idx := 1,
                         type_info := 6 },
          num_elements := 11, chunk_key := ([1, 2] : List Int),
          optype := SQLOps.kEQ } = true ↔
      (exampleColRange = exampleColRange ∧
       ({ table_id := 1, column_id := 2, rte_idx := 0, type_info := 6 } :
          ColumnVar) =
         { table_id := 1, column_id := 2, rte_idx := 0, type_info := 6 } ∧
       ({ table_id := 3, column_id := 4, rte_idx := 1, type_info := 6 } :
          ColumnVar) =
         { table_id := 3, column_id := 4, rte_idx := 1, type_info := 6 } ∧
       (11 : Nat) = 11 ∧
       ([1, 2] : List Int) = [1, 2] ∧ SQLOps.kEQ = SQLOps.kEQ)) ∧
    ∀ (τ : Type) (t : τ) (rest : List (JoinHashTableCacheKey × τ)),
      JoinHashTableCacheKey.keyEq
          { col_range := exampleColRange,
            inner_col := { table_id := 1, column_id := 2, rte_idx := 0,
                           type_info := 6 },
            outer_col := { table_id := 3, column_id := 4, rte_idx := 1,
                           type_info := 6 },
            num_elements := 11, chunk_key := ([1, 2] : List Int),
            optype := SQLOps.kEQ }
          { col_range := exampleColRange,
            inner_col := { table_id := 1, column_id := 2, rte_idx := 0,
                           type_info := 6 },
            outer_col := { table_id := 3, column_id := 4, rte_idx := 1,
                           type_info := 6 },
            num_elements := 11, chunk_key := ([1, 2] : List Int),
            optype := SQLOps.kEQ } = true →
      initHashTableOnCpuFromCache
          (({ col_range := exampleColRange,
              inner_col := { table_id := 1, column_id := 2, rte_idx := 0,
                             type_info := 6 },
              outer_col := { table_id := 3, column_id := 4, rte_idx := 1,
                             type_info := 6 },
              num_elements := 11, chunk_key := ([1, 2] : List Int),
              optype := SQLOps.kEQ }, t) :: rest)
          { col_range := exampleColRange,
            inner_col := { table_id := 1, column_id := 2, rte_idx := 0,
                           type_info := 6 },
            outer_col := { table_id := 3, column_id := 4, rte_idx := 1,
                           type_info := 6 },
            num_elements := 11, chunk_key := ([1, 2] : List Int),
            optype := SQLOps.kEQ } = some t :=
  cacheKey_eq_iff_components _ _

/-- `TableMustBeReplicated(table_name)`: the error message the exception
carries, naming the offending table. -/
def tableMustBeReplicatedMessage (table_name : String) : String :=
  "Hash join failed: Table '" ++ table_name ++ "' must be replicated."

/-- Modelled from the spec:
`JoinHashTable::checkHashJoinReplicationConstraint` (its body is not under
`src/`) — when the inner table is fragmented across compute nodes and the
execution device requires a full join table, the inner table must be fully
replicated to that device; absence of replication fails with the
`TableMustBeReplicated` error naming the table, and the error is returned
to the caller without any retry. -/
def checkHashJoinReplicationConstraint (fragmented_across_nodes : Bool)
    (device_requires_full_table : Bool) (table_is_replicated : Bool)
    (table_name : String) : Except String Unit :=
  if fragmented_across_nodes && device_requires_full_table &&
      !table_is_replicated then
    Except.error (tableMustBeReplicatedMessage table_name)
  else
    Except.ok ()

/-- C6: when the inner table lacks the required full replication for the
target device, the replication check fails with the `TableMustBeReplicated`
error, whose message contains the offending table's name; with replication
present the check passes. -/
theorem checkHashJoinReplicationConstraint_spec (table_name : String) :
    checkHashJoinReplicationConstraint true true false table_name =
      Except.error (tableMustBeReplicatedMessage table_name) ∧
    (∃ pre post,
      tableMustBeReplicatedMessage table_name =
        pre ++ table_name ++ post) ∧
    checkHashJoinReplicationConstraint true true true table_name =
      Except.ok () :=
  ⟨rfl, ⟨"Hash join failed: Table '", "' must be replicated.", rfl⟩, rfl⟩

/-- Modelled from the spec: the Layout Selector's hash-entry count (the
body of the selector is not under `src/`) — the entry count starts at
`(max - min + 1)` and is expanded by one reserved null slot when the column
contains nulls. -/
def hashEntryCount (r : ExpressionRange) : Int :=
  r.int_max - r.int_min + 1 + (if r.has_nulls then 1 else 0)

/-- The reserved null slot: the single slot appended past the value range
when the column contains nulls. -/
def nullSlot (r : ExpressionRange) : Int :=
  r.int_max - r.int_min + 1

/-- Modelled from the spec: the Hash Table Builder's slot computation
(`initHashTableForDevice`'s body is not under `src/`) — for every input
value `slot = clamp(value - min, 0, hash_entry_count - 1)`; null values
(the null sentinel, when the column has nulls) occupy the reserved null
slot rather than being dropped. -/
def builderSlot (r : ExpressionRange) (null_sentinel v : Int) : Int :=
  if r.has_nulls = true ∧ v = null_sentinel then nullSlot r
  else min (max (v - r.int_min) 0) (hashEntryCount r - 1)

/-- Modelled from the spec: the slot arithmetic emitted by
`JoinHashTable::codegenSlot` (its body is not under `src/`) — the probe
generator evaluates the key and computes the slot index with the same
`value - min` arithmetic as the builder, sending the null sentinel (when
the column has nulls) to the reserved null slot. -/
def codegenSlot (r : ExpressionRange) (null_sentinel v : Int) : Int :=
  if r.has_nulls = true ∧ v = null_sentinel then nullSlot r
  else v - r.int_min

/-- C1: slot symmetry — for every key value within the column's declared
range, and for the null sentinel when the column has nulls, the slot the
builder computes equals the slot the probe generator computes for the same
logical value. -/
theorem builderSlot_eq_codegenSlot (r : ExpressionRange)
    (null_sentinel v : Int)
    (h : (r.int_min ≤ v ∧ v ≤ r.int_max) ∨
      (r.has_nulls = true ∧ v = null_sentinel)) :
    builderSlot r null_sentinel v = codegenSlot r null_sentinel v := by
  unfold builderSlot codegenSlot nullSlot hashEntryCount
  rcases h with ⟨h1, h2⟩ | ⟨hn, hv⟩
  · split
    · rfl
    · split <;> omega
  · simp [hn, hv]

/-- C1 witness: a column range `[10, 15]` with nulls, an in-range key 12 —
builder and probe generator agree on the slot. -/
theorem builderSlot_eq_codegenSlot_witness :
    builderSlot
        { type := ExpressionRangeType.Integer, int_min := 10, int_max := 15,
          has_nulls := true } 99 12 =
      codegenSlot
        { type := ExpressionRangeType.Integer, int_min := 10, int_max := 15,
          has_nulls := true } 99 12 :=
  builderSlot_eq_codegenSlot
    { type := ExpressionRangeType.Integer, int_min := 10, int_max := 15,
      has_nulls := true } 99 12 (Or.inl (by decide))

/-- Construction failure signals, mirroring the exception classes declared
in `HashJoin.h` (`TooManyHashEntries`, `NeedsOneToManyHash`,
`FailedToFetchColumn`, `HashJoinFail`). -/
inductive BuildError where
  | tooManyHashEntries
  | needsOneToManyHash
  | failedToFetchColumn
  | hashJoinFail
  deriving DecidableEq, Repr

/-- Modelled from the spec: the addressable-slot ceiling — hash tables with
more than 2^31 entries are rejected outright. -/
def maxHashEntryCount : Int :=
  2 ^ 31

/-- Modelled from the spec: writing one row id into a `OneToOne` slot —
writing a second row id into an already-occupied slot is a collision that
aborts the build with the `NeedsOneToManyHash` signal.  (Keys are hashed to
in-range slots by construction; an out-of-range slot index leaves the
buffer unchanged.) -/
def insertOneToOne (slots : List (Option Nat)) (slot rowid : Nat) :
    Except BuildError (List (Option Nat)) :=
  match slots.get? slot with
  | some none => Except.ok (slots.set slot (some rowid))
  | some (some _) => Except.error BuildError.needsOneToManyHash
  | none => Except.ok slots

/-- Modelled from the spec: the `OneToOne` fill pass — every input row's
value is hashed to its slot with the builder arithmetic and the row id
recorded, aborting on the first collision. -/
def fillOneToOne (r : ExpressionRange) (null_sentinel : Int) :
    List (Nat × Int) → List (Option Nat) →
      Except BuildError (List (Option Nat))
  | [], slots => Except.ok slots
  | (rowid, v) :: rest, slots =>
    match insertOneToOne slots (builderSlot r null_sentinel v).toNat rowid with
    | Except.error e => Except.error e
    | Except.ok updated => fillOneToOne r null_sentinel rest updated

/-- A per-device build outcome together with the number of buffer
allocations the build performed before finishing. -/
structure BuildTrace (τ : Type) where
  outcome : Except BuildError τ
  allocations : Nat

/-- Modelled from the spec: the per-device build entry point
(`initHashTableForDevice`'s body is not under `src/`) — the hash-entry
count computed from the column range is checked against the 2^31 ceiling
first: an oversize count fails with `TooManyHashEntries` before any buffer
allocation; otherwise one buffer of `hashEntryCount` slots is allocated and
filled row by row. -/
def initHashTableForDevice (r : ExpressionRange) (null_sentinel : Int)
    (rows : List (Nat × Int)) : BuildTrace (List (Option Nat)) :=
  if maxHashEntryCount < hashEntryCount r then
    { outcome := Except.error BuildError.tooManyHashEntries,
      allocations := 0 }
  else
    { outcome := fillOneToOne r null_sentinel rows
        (List.replicate (hashEntryCount r).toNat none),
      allocations := 1 }

/-- C2: whenever the computed hash-entry count exceeds the 2^31 slot
ceiling, the per-device build fails with the `TooManyHashEntries` error and
performs zero buffer allocations — no partial table exists and the error is
the build's returned outcome (it is not retried). -/
theorem tooManyHashEntries_before_allocation (r : ExpressionRange)
    (null_sentinel : Int) (rows : List (Nat × Int))
    (h : maxHashEntryCount < hashEntryCount r) :
    (initHashTableForDevice r null_sentinel rows).outcome =
      Except.error BuildError.tooManyHashEntries ∧
    (initHashTableForDevice r null_sentinel rows).allocations = 0 := by
  unfold initHashTableForDevice
  rw [if_pos h]
  exact ⟨rfl, rfl⟩

/-- C2 witness: the range `[0, 2^31 - 1]` with nulls yields a slot count of
2^31 + 1, which is rejected with zero allocations. -/
theorem tooManyHashEntries_before_allocation_witness :
    (initHashTableForDevice
        { type := ExpressionRangeType.Integer, int_min := 0,
          int_max := 2 ^ 31 - 1, has_nulls := true } 99
        [(0, 5)]).outcome =
      Except.error BuildError.tooManyHashEntries ∧
    (initHashTableForDevice
        { type := ExpressionRangeType.Integer, int_min := 0,
          int_max := 2 ^ 31 - 1, has_nulls := true } 99
        [(0, 5)]).allocations = 0 :=
  tooManyHashEntries_before_allocation
    { type := ExpressionRangeType.Integer, int_min := 0,
      int_max := 2 ^ 31 - 1, has_nulls := true } 99 [(0, 5)] (by decide)

/-- Modelled from the spec: the construction driver (`reify`) — a
`NeedsOneToManyHash` signal from the `OneToOne` build causes exactly one
internal restart with the `OneToMany` layout; any failure of the restarted
build is not restarted again but escapes as a fatal construction error.
The second component records the layouts attempted, in order. -/
def reifyWithLayoutUpgrade {τ : Type}
    (buildFn : HashType → Except BuildError τ) :
    Except BuildError τ × List HashType :=
  match buildFn HashType.OneToOne with
  | Except.error BuildError.needsOneToManyHash =>
    (buildFn HashType.OneToMany, [HashType.OneToOne, HashType.OneToMany])
  | r => (r, [HashType.OneToOne])

/-- C3: a second row id written into an occupied `OneToOne` slot signals
`NeedsOneToManyHash`; the driver then restarts construction exactly once
with the `OneToMany` layout (the attempted-layout trace is precisely
`[OneToOne, OneToMany]`), adopting the restarted build's result; and when
the restarted build collides again the driver surfaces that error as fatal
instead of restarting a third time. -/
theorem oneToOne_collision_upgrade :
    (∀ (slots : List (Option Nat)) (slot rowid prev : Nat),
      slots.get? slot = some (some prev) →
      insertOneToOne slots slot rowid =
        Except.error BuildError.needsOneToManyHash) ∧
    ∀ (τ : Type) (buildFn : HashType → Except BuildError τ),
      buildFn HashType.OneToOne =
          Except.error BuildError.needsOneToManyHash →
      (reifyWithLayoutUpgrade buildFn).2 =
          [HashType.OneToOne, HashType.OneToMany] ∧
      (reifyWithLayoutUpgrade buildFn).1 = buildFn HashType.OneToMany ∧
      (buildFn HashType.OneToMany =
          Except.error BuildError.needsOneToManyHash →
        (reifyWithLayoutUpgrade buildFn).1 =
          Except.error BuildError.needsOneToManyHash) := by
  constructor
  · intro slots slot rowid prev h
    unfold insertOneToOne
    rw [h]
  · intro τ buildFn h
    unfold reifyWithLayoutUpgrade
    rw [h]
    exact ⟨rfl, rfl, fun h2 => h2⟩

/-- C3 witness: a one-slot table holding row 0 collides on row 1; a build
function whose `OneToOne` pass collides is restarted once with `OneToMany`
and its second collision is surfaced. -/
theorem oneToOne_collision_upgrade_witness :
    insertOneToOne [some 0] 0 1 =
      Except.error BuildError.needsOneToManyHash ∧
    (reifyWithLayoutUpgrade (fun _ =>
        (Except.error BuildError.needsOneToManyHash :
          Except BuildError Nat))).2 =
      [HashType.OneToOne, HashType.OneToMany] ∧
    (reifyWithLayoutUpgrade (fun _ =>
        (Except.error BuildError.needsOneToManyHash :
          Except BuildError Nat))).1 =
      Except.error BuildError.needsOneToManyHash :=
  ⟨oneToOne_collision_upgrade.1 [some 0] 0 1 0 rfl,
   (oneToOne_collision_upgrade.2 Nat
      (fun _ => Except.error BuildError.needsOneToManyHash) rfl).1,
   (oneToOne_collision_upgrade.2 Nat
      (fun _ => Except.error BuildError.needsOneToManyHash) rfl).2.2 rfl⟩

/-- The `HashJoinMatchingSet` triple declared in `HashJoin.h`: the
`elements` handle, the match `count` and the computed `slot` index. -/
structure HashJoinMatchingSet where
  elements : Int
  count : Int
  slot : Int
  deriving DecidableEq, Repr

/-- The "empty" sentinel an unoccupied `OneToOne` slot entry holds. -/
def emptySlotSentinel : Int :=
  -1

/-- Modelled from the spec: `JoinHashTable::codegenMatchingSet` (its body
is not under `src/`) — probe-time code generation is total: it always
returns a `HashJoinMatchingSet` triple and encodes every runtime miss as
`count = 0` rather than an error.  A null probe key without
bitwise-equality is a miss; for `OneToOne` the `elements` handle is the
slot's entry and `count` is 1 unless the entry is the empty sentinel (then
0); for layouts with additional buffers
`elements = payload_base + offset[slot]` and `count = count_array[slot]`. -/
def codegenMatchingSet (layout : HashType) (r : ExpressionRange)
    (null_sentinel : Int) (one_to_one_entries : List Int)
    (offset_array count_array : List Int) (payload_base : Int)
    (is_bw_eq : Bool) (key_is_null : Bool) (v : Int) : HashJoinMatchingSet :=
  let slot := codegenSlot r null_sentinel v
  if key_is_null && !is_bw_eq then
    { elements := payload_base, count := 0, slot := slot }
  else
    match layout with
    | HashType.OneToOne =>
      let entry := one_to_one_entries.getD slot.toNat emptySlotSentinel
      { elements := entry,
        count := if entry = emptySlotSentinel then 0 else 1,
        slot := slot }
    | _ =>
      { elements := payload_base + offset_array.getD slot.toNat 0,
        count := count_array.getD slot.toNat 0,
        slot := slot }

/-- C4: `codegenMatchingSet` always yields a triple whose `slot` is the
probe-generator slot; a null probe key without bitwise-equality gives
`count = 0`; otherwise a `OneToOne` lookup returns the slot's entry with
`count` 1, or 0 when the entry is the empty sentinel; and for every layout
with additional buffers (`OneToMany`/`ManyToMany`) it returns
`payload_base + offset[slot]` and `count_array[slot]`. -/
theorem codegenMatchingSet_spec :
    ∀ (layout : HashType) (r : ExpressionRange) (null_sentinel : Int)
      (one_to_one_entries offset_array count_array : List Int)
      (payload_base : Int) (is_bw_eq key_is_null : Bool) (v : Int),
      (codegenMatchingSet layout r null_sentinel one_to_one_entries
          offset_array count_array payload_base is_bw_eq key_is_null
          v).slot = codegenSlot r null_sentinel v ∧
      ((key_is_null && !is_bw_eq) = true →
        (codegenMatchingSet layout r null_sentinel one_to_one_entries
            offset_array count_array payload_base is_bw_eq key_is_null
            v).count = 0) ∧
      ((key_is_null && !is_bw_eq) = false → layout = HashType.OneToOne →
        (codegenMatchingSet layout r null_sentinel one_to_one_entries
              offset_array count_array payload_base is_bw_eq key_is_null
              v).elements =
            one_to_one_entries.getD
              (codegenSlot r null_sentinel v).toNat emptySlotSentinel ∧
        (codegenMatchingSet layout r null_sentinel one_to_one_entries
              offset_array count_array payload_base is_bw_eq key_is_null
              v).count =
            (if one_to_one_entries.getD
                  (codegenSlot r null_sentinel v).toNat emptySlotSentinel =
                emptySlotSentinel then 0 else 1)) ∧
      ((key_is_null && !is_bw_eq) = false →
        layoutRequiresAdditionalBuffers layout = true →
        (codegenMatchingSet layout r null_sentinel one_to_one_entries
              offset_array count_array payload_base is_bw_eq key_is_null
              v).elements =
            payload_base +
              offset_array.getD (codegenSlot r null_sentinel v).toNat 0 ∧
        (codegenMatchingSet layout r null_sentinel one_to_one_entries
              offset_array count_array payload_base is_bw_eq key_is_null
              v).count =
            count_array.getD (codegenSlot r null_sentinel v).toNat 0) := by
  intro layout r null_sentinel one_to_one_entries offset_array count_array
    payload_base is_bw_eq key_is_null v
  refine ⟨?_, ?_, ?_, ?_⟩
  · unfold codegenMatchingSet
    split
    · rfl
    · cases layout <;> rfl
  · intro hmiss
    unfold codegenMatchingSet
    rw [hmiss]
    rfl
  · intro hhit hlayout
    subst hlayout
    unfold codegenMatchingSet
    rw [hhit]
    exact ⟨rfl, rfl⟩
  · intro hhit hbuf
    unfold codegenMatchingSet
    rw [hhit]
    cases layout
    · simp [layoutRequiresAdditionalBuffers] at hbuf
    · exact ⟨rfl, rfl⟩
    · exact ⟨rfl, rfl⟩

/-- C4 witness: concrete probes — a null key without bitwise-equality gives
count 0; a `OneToOne` hit gives count 1; a `OneToMany` probe reads
offset/count arrays. -/
theorem codegenMatchingSet_spec_witness :
    (codegenMatchingSet HashType.OneToOne
        { type := ExpressionRangeType.Integer, int_min := 10, int_max := 15,
          has_nulls := false } 99 [7, -1] [] [] 0 false true 10).count = 0 ∧
    (codegenMatchingSet HashType.OneToOne
          { type := ExpressionRangeType.Integer, int_min := 10,
            int_max := 15, has_nulls := false } 99 [7, -1] [] [] 0 false
          false 10).elements =
        ([7, -1] : List Int).getD
          (codegenSlot
            { type := ExpressionRangeType.Integer, int_min := 10,
              int_max := 15, has_nulls := false } 99 10).toNat
          emptySlotSentinel ∧
    (codegenMatchingSet HashType.OneToMany
          { type := ExpressionRangeType.Integer, int_min := 10,
            int_max := 15, has_nulls := false } 99 [] [0, 2] [2, 1] 100
          false false 11).count =
        ([2, 1] : List Int).getD
          (codegenSlot
            { type := ExpressionRangeType.Integer, int_min := 10,
              int_max := 15, has_nulls := false } 99 11).toNat 0 :=
  ⟨(codegenMatchingSet_spec HashType.OneToOne
      { type := ExpressionRangeType.Integer, int_min := 10, int_max := 15,
        has_nulls := false } 99 [7, -1] [] [] 0 false true 10).2.1 rfl,
   ((codegenMatchingSet_spec HashType.OneToOne
      { type := ExpressionRangeType.Integer, int_min := 10, int_max := 15,
        has_nulls := false } 99 [7, -1] [] [] 0 false false 10).2.2.1
      rfl rfl).1,
   ((codegenMatchingSet_spec HashType.OneToMany
      { type := ExpressionRangeType.Integer, int_min := 10, int_max := 15,
        has_nulls := false } 99 [] [0, 2] [2, 1] 100 false false
      11).2.2.2 rfl rfl).2⟩

end OmniSciJoin
